import Mathlib

/-!
Shallow embedding of `src/ai_security_monitor.py` (class `AISecurityMonitor`).

Modelling conventions:
* Python `datetime` instants are integers (seconds); `timedelta(minutes=1)` is `60`,
  `timedelta(hours=h)` is `3600 * h`.  An incident's `timestamp` is stored as the
  integer instant (the source stores `isoformat()` and parses it back with
  `fromisoformat`, a lossless round trip).
* Real numbers in input arrays are rationals (`ℚ`); the boundary comparisons
  exercised by the spec (`|x| > 1e6`, `ratio < 0.01` at `0/100` and `1/100`)
  have the same truth value over `ℚ` as over IEEE doubles, because the literals
  involved are compared either exactly or far from rounding boundaries.
* Python exceptions are modelled with `Except PyError`; exceptions that the
  source catches locally are caught inside the corresponding definition, so a
  function that can raise to ITS caller returns `Except`, and a function whose
  body catches everything is total.
* A numpy `ndarray` is a shape plus row-major flattened data.  A Python value
  that `np.asarray`/`np.abs` cannot turn into a uniform numeric array (ragged
  nesting, non-numeric elements) is modelled as `none : Option NDArray`.
* The SMTP session of `_send_alert` is an external effect: its outcome is an
  oracle parameter `transport : Except String Unit` threaded into the calls
  (`.error msg` = the connection/starttls/login/send raised).
* `logging.basicConfig` / `logging.info` / `logging.warning` / `logging.error`
  write to an external log sink and affect no monitor state; they are omitted.
-/

namespace AISecurityMonitor

/-- A Python exception escaping a modelled function: `KeyError(key)` from a
missing dictionary key, or `SMTPError` style failures from the mail transport
(tagged with the message of the underlying failure). -/
inductive PyError where
  | keyError (key : String)
  | smtpError (msg : String)
  deriving DecidableEq, Repr

/-- The three severity strings `"low"`, `"medium"`, `"high"` used by the source. -/
inductive Severity where
  | low
  | medium
  | high
  deriving DecidableEq, Repr

/-- Spec ordering low < medium < high, as a numeric rank. -/
def Severity.rank : Severity → Nat
  | .low => 0
  | .medium => 1
  | .high => 2

/-- `incident['severity'].upper()` in the alert subject line. -/
def Severity.upperStr : Severity → String
  | .low => "LOW"
  | .medium => "MEDIUM"
  | .high => "HIGH"

/-- A well-formed numpy array: shape and row-major flattened data.
`wf` is numpy's invariant `len(flat data) = prod(shape)`. -/
structure NDArray where
  shape : List Nat
  data : List ℚ
  wf : data.length = shape.prod

/-- `ndarray.size`: the number of elements, the product of all dimensions. -/
def NDArray.size (t : NDArray) : Nat := t.shape.prod

/-- `len(ndarray.shape)`: the number of dimensions. -/
def NDArray.ndim (t : NDArray) : Nat := t.shape.length

/-- `np.count_nonzero(input_array)`. -/
def NDArray.count_nonzero (t : NDArray) : Nat := t.data.countP (fun x => x ≠ 0)

/-- Row-major stride of axis `k`: the flat-index distance between neighbours
along that axis. -/
def NDArray.stride (t : NDArray) (k : Nat) : Nat := (t.shape.drop (k + 1)).prod

/-- Element at flat index `i` (0 outside the range; all uses stay in range). -/
def NDArray.get (t : NDArray) (i : Nat) : ℚ := t.data.getD i 0

/-- One component of `np.gradient(a)`: the first-order difference along axis
`k` at flat position `i` (one-sided at the two edges of the axis, central
difference with spacing 2 in the interior; unit spacing). -/
def NDArray.gradAt (t : NDArray) (k i : Nat) : ℚ :=
  let n := t.shape.getD k 0
  let s := t.stride k
  let pos := (i / s) % n
  if pos = 0 then t.get (i + s) - t.get i
  else if pos = n - 1 then t.get i - t.get (i - s)
  else (t.get (i + s) - t.get (i - s)) / 2

/-- `np.gradient` (default `edge_order=1`) raises `ValueError` unless every
axis has at least 2 elements. -/
def NDArray.gradientDefined (t : NDArray) : Bool := t.shape.all (fun n => 2 ≤ n)

/-- `np.all(np.abs(gradient) > 100)`: every component of the gradient along
every axis exceeds 100 in absolute value. -/
def NDArray.gradientAllAbsGt100 (t : NDArray) : Bool :=
  (List.range t.ndim).all fun k =>
    (List.range t.size).all fun i => decide (100 < |t.gradAt k i|)

/-- The dictionary returned by `_analyze_input_patterns`.  Its `"details"`
entry is created empty and never written, so only `suspicious_patterns` is
modelled. -/
structure AnalysisResult where
  suspicious_patterns : List String
  deriving DecidableEq, Repr

/-- The `try:` body of `_analyze_input_patterns` on a successfully coerced
array: the accumulated labels together with a flag telling whether an
exception escaped to the `except` handler.  The two raise points are the
sparsity division `count_nonzero / size` when `size = 0` (`ZeroDivisionError`
on `0 / 0` between Python ints) and `np.gradient` on an array that has an
axis with fewer than 2 elements (`ValueError`). -/
def analyzeBody (t : NDArray) : List String × Bool :=
  -- Check for extreme values
  let r1 : List String :=
    if t.data.any (fun x => 1000000 < |x|) then ["extreme_values"] else []
  -- Check for unusual sparsity
  if t.size = 0 then (r1, true)
  else
    let sparsity : ℚ := (t.count_nonzero : ℚ) / (t.size : ℚ)
    let r2 := if sparsity < 1 / 100 then r1 ++ ["suspicious_sparsity"] else r1
    -- Check for repeating patterns
    if 1 < t.ndim then
      if t.gradientDefined then
        let r3 :=
          if t.gradientAllAbsGt100 then r2 ++ ["potential_adversarial_pattern"] else r2
        (r3, false)
      else (r2, true)
    else (r2, false)

/-- `_analyze_input_patterns(input_data)`.  `none` models an input that
`np.asarray`/`np.abs` rejects (ragged nesting, non-numeric elements): the
exception fires before any check completes.  The `except Exception` handler
logs and appends `analysis_error` to whatever was accumulated. -/
def analyze_input_patterns (input_data : Option NDArray) : AnalysisResult :=
  match input_data with
  | none => ⟨["analysis_error"]⟩
  | some t =>
    let (labels, raised) := analyzeBody t
    if raised then ⟨labels ++ ["analysis_error"]⟩ else ⟨labels⟩

/-- Whether `_analyze_input_patterns`'s `try` body raises internally on this
input (the `except` handler runs). -/
def analysisRaises : Option NDArray → Bool
  | none => true
  | some t => (analyzeBody t).2

/-- The `"smtp_settings"` sub-dictionary of `alert_settings`.  Keys the source
reads with `[...]` and that may be absent are `Option`; `use_tls` is read with
`.get(...)` (absent behaves like `False`); credentials are used only when
`"username" in smtp_settings`. -/
structure SmtpSettings where
  server : String
  port : Int
  sender : Option String
  use_tls : Bool
  username : Option String
  password : Option String
  deriving DecidableEq, Repr

/-- The `"alert_thresholds"` sub-dictionary.  Only `max_requests_per_minute`
is ever read; the other two keys are declared in the docstring but unused. -/
structure AlertThresholds where
  max_requests_per_minute : Option Int
  suspicious_pattern_threshold : Option ℚ
  failed_attempts_threshold : Option Int
  deriving DecidableEq, Repr

/-- The `alert_settings` dictionary handed to `__init__`.  Each key the source
later reads with `[...]` may be absent (`KeyError` at the read). -/
structure AlertSettings where
  email_recipients : Option (List String)
  smtp_settings : Option SmtpSettings
  alert_thresholds : Option AlertThresholds
  deriving DecidableEq, Repr

/-- `self.alert_settings["alert_thresholds"]["max_requests_per_minute"]`:
the double dictionary lookup on line 87, raising `KeyError` at the first
missing key. -/
def max_requests_per_minute (s : AlertSettings) : Except PyError Int :=
  match s.alert_thresholds with
  | none => .error (.keyError "alert_thresholds")
  | some th =>
    match th.max_requests_per_minute with
    | none => .error (.keyError "max_requests_per_minute")
    | some n => .ok n

/-- A security incident as built by `_log_incident`: the assessment fields
plus the source address.  The `details` dictionary of an assessment only ever
holds the `"patterns"` key, modelled as `details_patterns`. -/
structure Incident where
  timestamp : Int
  severity : Severity
  threats : List String
  ip_address : String
  details_patterns : Option AnalysisResult
  deriving DecidableEq, Repr

/-- The `threat_assessment` dictionary built by `detect_threat`. -/
structure ThreatAssessment where
  timestamp : Int
  severity : Severity
  threats_detected : List String
  details_patterns : Option AnalysisResult
  deriving DecidableEq, Repr

/-- The `request_data` dictionary: `detect_threat` reads exactly the keys
`"ip_address"` and `"input_data"`. -/
structure RequestData where
  ip_address : String
  input_data : Option NDArray

/-- The mutable state of an `AISecurityMonitor` instance.  `request_history`
is the `defaultdict(list)` mapping an address to its recorded instants
(reading a missing key yields `[]`). -/
structure MonitorState where
  model_name : String
  alert_settings : AlertSettings
  incident_log : List Incident
  request_history : String → List Int

/-- `__init__(model_name, alert_settings, logging_path)`: stores the name and
settings unvalidated, starts with an empty incident log and empty request
history.  (`logging.basicConfig` only configures the external log sink.) -/
def init (model_name : String) (alert_settings : AlertSettings)
    (logging_path : Option String := none) : MonitorState :=
  let _ := logging_path
  { model_name := model_name
    alert_settings := alert_settings
    incident_log := []
    request_history := fun _ => [] }

/-- `_check_rate_limit(ip_address)` at instant `now`.  The history update on
line 85 happens before the threshold lookup on line 87, so the returned state
is updated even when the lookup raises `KeyError`. -/
def check_rate_limit (st : MonitorState) (now : Int) (ip_address : String) :
    MonitorState × Except PyError Bool :=
  let recent_requests := (st.request_history ip_address).filter fun ts => now - ts < 60
  -- Update request history
  let st1 := { st with
    request_history := Function.update st.request_history ip_address (recent_requests ++ [now]) }
  match max_requests_per_minute st.alert_settings with
  | .error e => (st1, .error e)
  | .ok thr => (st1, .ok (decide (thr < (recent_requests.length : Int))))

/-- The subject line of `_send_alert`'s message. -/
def formatSubject (model_name : String) (incident : Incident) : String :=
  "Security Alert: " ++ model_name ++ " - " ++ incident.severity.upperStr ++ " Severity"

/-- The body of `_send_alert`'s message with the same fields in the same
order (the exact whitespace of the Python f-string is not modelled; no field
access in it can raise). -/
def formatMessageBody (incident : Incident) : String :=
  "Security incident detected: Timestamp: " ++ toString incident.timestamp
    ++ " Severity: " ++ incident.severity.upperStr
    ++ " Threats Detected: " ++ String.intercalate ", " incident.threats
    ++ " IP Address: " ++ incident.ip_address
    ++ " Please review the incident and take appropriate action."

/-- The `try:` body of `_send_alert`: format the message, look up sender and
recipients (a missing key raises `KeyError` inside the `try`), then run the
SMTP session, whose outcome is the `transport` oracle.  Returns the delivered
message on success. -/
def sendAlertBody (model_name : String) (settings : AlertSettings)
    (transport : Except String Unit) (incident : Incident) :
    Except PyError (String × String) :=
  let subject := formatSubject model_name incident
  let body := formatMessageBody incident
  match settings.smtp_settings with
  | none => .error (.keyError "smtp_settings")
  | some ss =>
    match ss.sender with
    | none => .error (.keyError "sender")
    | some _sender =>
      match settings.email_recipients with
      | none => .error (.keyError "email_recipients")
      | some _recipients =>
        match transport with
        | .error msg => .error (.smtpError msg)
        | .ok () => .ok (subject, body)

/-- `_send_alert(incident)`: the whole body runs under
`try: ... except Exception as e: logging.error(...)`, so every failure is
caught and swallowed; the function is total and has no effect on monitor
state. -/
def send_alert (model_name : String) (settings : AlertSettings)
    (transport : Except String Unit) (incident : Incident) : Unit :=
  match sendAlertBody model_name settings transport incident with
  | .ok _ => ()
  | .error _ => ()

/-- Line 141's guard: `threat_assessment["severity"] in ["medium", "high"]`. -/
def severity_warrants_alert (s : Severity) : Bool :=
  s = Severity.medium || s = Severity.high

/-- The `incident` dictionary built at the top of `_log_incident`. -/
def mkIncident (ta : ThreatAssessment) (req : RequestData) : Incident :=
  { timestamp := ta.timestamp
    severity := ta.severity
    threats := ta.threats_detected
    ip_address := req.ip_address
    details_patterns := ta.details_patterns }

/-- `_log_incident(threat_assessment, request_data)`: append the incident to
the in-memory history, then attempt the alert when severity warrants it
(the attempt never fails the caller and never touches state). -/
def log_incident (st : MonitorState) (ta : ThreatAssessment) (req : RequestData)
    (transport : Except String Unit) : MonitorState :=
  let incident := mkIncident ta req
  -- Store in incident history
  let st1 := { st with incident_log := st.incident_log ++ [incident] }
  -- Send alert if severity warrants it
  if severity_warrants_alert ta.severity then
    let _ := send_alert st1.model_name st1.alert_settings transport incident
    st1
  else st1

/-- The assessment skeleton created at the top of `detect_threat`. -/
def initialAssessment (now : Int) : ThreatAssessment :=
  { timestamp := now
    severity := .low
    threats_detected := []
    details_patterns := none }

/-- Lines 57-59: on a rate violation append `rate_limit_exceeded` and set
severity to medium. -/
def applyRateRule (ta : ThreatAssessment) (rateHit : Bool) : ThreatAssessment :=
  if rateHit then
    { ta with
      threats_detected := ta.threats_detected ++ ["rate_limit_exceeded"]
      severity := .medium }
  else ta

/-- Lines 62-66: if the pattern analysis produced any label, append them all,
set severity to high and attach the analysis result under
`details["patterns"]`. -/
def applyPatternRule (ta : ThreatAssessment) (pc : AnalysisResult) : ThreatAssessment :=
  if pc.suspicious_patterns ≠ [] then
    { ta with
      threats_detected := ta.threats_detected ++ pc.suspicious_patterns
      severity := .high
      details_patterns := some pc }
  else ta

/-- `detect_threat(request_data)` at instant `now`.  The rate check mutates
the request history even when its threshold lookup raises; the `KeyError`
then propagates to the caller (line 57) before the pattern check runs or any
incident is logged. -/
def detect_threat (st : MonitorState) (now : Int) (req : RequestData)
    (transport : Except String Unit) :
    MonitorState × Except PyError ThreatAssessment :=
  let ta0 := initialAssessment now
  -- Check request rate
  let (st1, rateRes) := check_rate_limit st now req.ip_address
  match rateRes with
  | .error e => (st1, .error e)
  | .ok rateHit =>
    let ta1 := applyRateRule ta0 rateHit
    -- Check input patterns
    let pattern_check := analyze_input_patterns req.input_data
    let ta2 := applyPatternRule ta1 pattern_check
    -- Log the threat assessment
    let st2 :=
      if ta2.threats_detected ≠ [] then log_incident st1 ta2 req transport else st1
    (st2, .ok ta2)

/-- The dictionary returned by `get_incident_summary`: `by_severity` is the
comprehension over the key list `["low", "medium", "high"]` in that order. -/
structure Summary where
  total_incidents : Nat
  by_severity : List (Severity × Nat)
  unique_ips : Nat
  most_common_threats : List (String × Nat)
  deriving DecidableEq, Repr

/-- The `defaultdict(int)` accumulation of `_get_common_threats`: bump the
count of `t`, inserting it at the end on first occurrence (Python dicts keep
insertion order). -/
def bumpCount (acc : List (String × Nat)) (t : String) : List (String × Nat) :=
  if acc.any (fun p => p.1 = t) then
    acc.map fun p => if p.1 = t then (p.1, p.2 + 1) else p
  else acc ++ [(t, 1)]

/-- `_get_common_threats(incidents)`: count every threat label across the
incidents, then `sorted(..., key=count, reverse=True)` — a stable descending
sort by count, modelled by `mergeSort` with `le a b := b.count ≤ a.count`. -/
def get_common_threats (incidents : List Incident) : List (String × Nat) :=
  let threat_counts :=
    incidents.foldl (fun acc i => i.threats.foldl bumpCount acc) []
  threat_counts.mergeSort fun a b => decide (b.2 ≤ a.2)

/-- `get_incident_summary(hours)` at instant `now`: pure — reads the incident
log, removes and mutates nothing. -/
def get_incident_summary (st : MonitorState) (now : Int) (hours : Int) : Summary :=
  let cutoff_time := now - 3600 * hours
  let recent_incidents := st.incident_log.filter fun i => cutoff_time < i.timestamp
  { total_incidents := recent_incidents.length
    by_severity := [Severity.low, Severity.medium, Severity.high].map fun s =>
      (s, (recent_incidents.filter fun i => i.severity = s).length)
    unique_ips := (recent_incidents.map fun i => i.ip_address).dedup.length
    most_common_threats := get_common_threats recent_incidents }

/-- The boolean outcome of the rate check at instant `now` for a monitor
whose threshold is `T`: strictly more surviving prior requests than `T`. -/
def rateHit (st : MonitorState) (now : Int) (ip : String) (T : Int) : Bool :=
  decide (T < (((st.request_history ip).filter fun ts => now - ts < 60).length : Int))

/-- The assessment a successful `detect_threat` call returns: the skeleton
run through the rate rule and then the pattern rule. -/
def assessment (st : MonitorState) (now : Int) (req : RequestData) (T : Int) :
    ThreatAssessment :=
  applyPatternRule
    (applyRateRule (initialAssessment now) (rateHit st now req.ip_address T))
    (analyze_input_patterns req.input_data)

/-- Iterated `_check_rate_limit` for one source: perform the checks at the
given instants in order, collecting each call's result. -/
def runRateChecks (ip : String) : MonitorState → List Int →
    MonitorState × List (Except PyError Bool)
  | st, [] => (st, [])
  | st, t :: ts =>
    let (st1, r) := check_rate_limit st t ip
    let (st2, rs) := runRateChecks ip st1 ts
    (st2, r :: rs)

/-- Invariant of the incident log: no stored incident has severity low. -/
def LogInv (st : MonitorState) : Prop :=
  ∀ i ∈ st.incident_log, i.severity ≠ Severity.low

/-- Total occurrence count of threat label `l` across a list of incidents. -/
def threatOccurrences (incidents : List Incident) (l : String) : Nat :=
  (incidents.map fun i => i.threats.count l).sum

/- Concrete instances used by counterexamples and witnesses. -/

/-- `np.asarray([[2000000]])`: shape (1, 1), one element of 2·10⁶. -/
def arr1x1big : NDArray := ⟨[1, 1], [2000000], rfl⟩

/-- A 100-element 1-D array with exactly one nonzero element. -/
def arr100one : NDArray := ⟨[100], 1 :: List.replicate 99 0, by simp⟩

/-- A 100-element 1-D array of zeros. -/
def arr100zeros : NDArray := ⟨[100], List.replicate 100 0, by simp⟩

/-- `np.asarray([])`: shape (0,), no elements. -/
def arrEmpty : NDArray := ⟨[0], [], rfl⟩

/-- A small benign 1-D array triggering no check. -/
def arrBenign : NDArray := ⟨[2], [1, 2], rfl⟩

/-- A fully populated SMTP configuration. -/
def smtpOk : SmtpSettings :=
  { server := "smtp.example.com", port := 587, sender := some "monitor@example.com"
    use_tls := true, username := some "user", password := some "pw" }

/-- Alert settings with every key present and threshold `T`. -/
def settingsT (T : Int) : AlertSettings :=
  { email_recipients := some ["security@example.com"]
    smtp_settings := some smtpOk
    alert_thresholds := some ⟨some T, some (85 / 100), some 5⟩ }

/-- Alert settings whose `alert_thresholds` key is absent. -/
def settingsNoThresholds : AlertSettings :=
  { email_recipients := some ["security@example.com"]
    smtp_settings := some smtpOk
    alert_thresholds := none }

/- Theorems. -/

/-- Helper: the labels accumulated inside the `try` body of
`_analyze_input_patterns` are never `analysis_error`: that label is appended
only by the `except` handler. -/
theorem analyzeBody_no_analysis_error (t : NDArray) :
    "analysis_error" ∉ (analyzeBody t).1 := by
  unfold analyzeBody
  split_ifs <;> simp <;> split_ifs <;> simp

/-- Helper: the sparsity test `count/size < 1/100` over `ℚ` is the integer
comparison `100 * count < size` (for a nonempty array). -/
theorem sparsity_cond_iff (c s : Nat) (h : s ≠ 0) :
    ((c : ℚ) / (s : ℚ) < 1 / 100) ↔ 100 * c < s := by
  have hs : (0 : ℚ) < (s : ℚ) := by exact_mod_cast Nat.pos_of_ne_zero h
  rw [div_lt_div_iff₀ hs (by norm_num : (0 : ℚ) < 100), one_mul, mul_comm]
  norm_cast

/-- Helper: `suspicious_sparsity` is in the analysis output exactly when the
sparsity ratio test fires (for an array the division does not raise on). -/
theorem sparsity_mem_iff (t : NDArray) (h0 : t.size ≠ 0) :
    ("suspicious_sparsity" ∈ (analyze_input_patterns (some t)).suspicious_patterns ↔
      ((t.count_nonzero : ℚ) / (t.size : ℚ) < 1 / 100)) := by
  simp only [analyze_input_patterns, analyzeBody]
  split_ifs <;> simp_all

/-- Helper: `_check_rate_limit` only rewrites the caller's request-history
bucket; the incident log, settings and model name are untouched, whether or
not the threshold lookup raises. -/
theorem check_rate_limit_state (st : MonitorState) (now : Int) (ip : String) :
    (check_rate_limit st now ip).1.incident_log = st.incident_log ∧
    (check_rate_limit st now ip).1.alert_settings = st.alert_settings ∧
    (check_rate_limit st now ip).1.model_name = st.model_name ∧
    (check_rate_limit st now ip).1.request_history
      = Function.update st.request_history ip
          (((st.request_history ip).filter fun ts => now - ts < 60) ++ [now]) := by
  cases hm : max_requests_per_minute st.alert_settings <;>
    simp [check_rate_limit, hm]

/-- Helper: with the threshold present, `_check_rate_limit` returns the
strict comparison of the surviving prior count against the threshold. -/
theorem check_rate_limit_ok (st : MonitorState) (now : Int) (ip : String)
    (T : Int) (hT : max_requests_per_minute st.alert_settings = .ok T) :
    (check_rate_limit st now ip).2
      = .ok (decide (T <
          ((((st.request_history ip).filter fun ts => now - ts < 60).length : Nat) : Int))) := by
  simp [check_rate_limit, hT]

/-- Helper: `_log_incident` appends exactly one incident. -/
theorem log_incident_log (st : MonitorState) (ta : ThreatAssessment)
    (req : RequestData) (transport : Except String Unit) :
    (log_incident st ta req transport).incident_log
      = st.incident_log ++ [mkIncident ta req] := by
  unfold log_incident
  split_ifs <;> rfl

/-- Helper: `_log_incident` leaves settings, model name and request history
unchanged. -/
theorem log_incident_state (st : MonitorState) (ta : ThreatAssessment)
    (req : RequestData) (transport : Except String Unit) :
    (log_incident st ta req transport).alert_settings = st.alert_settings ∧
    (log_incident st ta req transport).model_name = st.model_name ∧
    (log_incident st ta req transport).request_history = st.request_history := by
  unfold log_incident
  split_ifs <;> exact ⟨rfl, rfl, rfl⟩

/-- Helper: with the threshold present, `detect_threat` is the composition of
the two rules, logging exactly when some threat was detected. -/
theorem detect_threat_ok (st : MonitorState) (now : Int) (req : RequestData)
    (transport : Except String Unit) (T : Int)
    (hT : max_requests_per_minute st.alert_settings = .ok T) :
    (detect_threat st now req transport).2 = .ok (assessment st now req T) ∧
    (detect_threat st now req transport).1 =
      (if (assessment st now req T).threats_detected ≠ [] then
        log_incident (check_rate_limit st now req.ip_address).1
          (assessment st now req T) req transport
       else (check_rate_limit st now req.ip_address).1) := by
  constructor <;>
    simp [detect_threat, check_rate_limit, assessment, rateHit, hT]

/-- Helper: when the threshold lookup raises, the `KeyError` propagates out
of `detect_threat` and no incident is recorded. -/
theorem detect_threat_err (st : MonitorState) (now : Int) (req : RequestData)
    (transport : Except String Unit) (e : PyError)
    (h : max_requests_per_minute st.alert_settings = .error e) :
    (detect_threat st now req transport).2 = .error e ∧
    (detect_threat st now req transport).1.incident_log = st.incident_log := by
  constructor <;> simp [detect_threat, check_rate_limit, h]

/-- Helper: the summary is a function of the incident log alone. -/
theorem get_incident_summary_congr (st1 st2 : MonitorState)
    (h : st1.incident_log = st2.incident_log) (now hours : Int) :
    get_incident_summary st1 now hours = get_incident_summary st2 now hours := by
  simp [get_incident_summary, h]

/-- C1 counterexample: with threshold `T = 0`, the claim says the `(T+1)`th
(= first) request inside a window must make the rate check return `true`;
the code returns `false`, because the just-arrived request is not counted
toward its own check and the comparison `0 > 0` is strict. -/
theorem rate_limit_claim_counterexample :
    (check_rate_limit (init "model" (settingsT 0)) 0 "10.0.0.1").2 = .ok false := rfl

/-- Helper: unfolding equation for `runRateChecks` on a non-empty time list. -/
theorem runRateChecks_cons (ip : String) (st : MonitorState) (t : Int) (ts : List Int) :
    runRateChecks ip st (t :: ts)
      = ((runRateChecks ip (check_rate_limit st t ip).1 ts).1,
         (check_rate_limit st t ip).2
           :: (runRateChecks ip (check_rate_limit st t ip).1 ts).2) := by
  simp only [runRateChecks]

/-- Helper: running the rate check at a sequence of instants that all lie
within one 60-second window of each other (and of the pre-existing history
entries) prunes nothing, so the `i`-th call compares the threshold against
exactly the number of previously recorded requests. -/
theorem runRateChecks_window (T : Int) (ip : String) :
    ∀ (times : List Int) (st : MonitorState),
      max_requests_per_minute st.alert_settings = .ok T →
      (∀ p ∈ st.request_history ip, ∀ u ∈ times, u - p < 60) →
      times.Pairwise (fun a b => b - a < 60) →
      (runRateChecks ip st times).2
        = (List.range times.length).map
            (fun i => .ok (decide (T < ((st.request_history ip).length : Int) + (i : Int)))) ∧
      (runRateChecks ip st times).1.request_history ip
        = st.request_history ip ++ times ∧
      (runRateChecks ip st times).1.alert_settings = st.alert_settings
  | [], st, hT, hpre, hpair => by simp [runRateChecks]
  | t :: ts, st, hT, hpre, hpair => by
    have hstate := check_rate_limit_state st t ip
    have hfil : ((st.request_history ip).filter fun p => t - p < 60)
        = st.request_history ip := by
      apply List.filter_eq_self.mpr
      intro p hp
      exact decide_eq_true (hpre p hp t (by simp))
    have hh1 : (check_rate_limit st t ip).1.request_history ip
        = st.request_history ip ++ [t] := by
      rw [hstate.2.2.2, Function.update_same, hfil]
    have hT1 : max_requests_per_minute (check_rate_limit st t ip).1.alert_settings
        = .ok T := by rw [hstate.2.1]; exact hT
    have hpre1 : ∀ p ∈ (check_rate_limit st t ip).1.request_history ip,
        ∀ u ∈ ts, u - p < 60 := by
      rw [hh1]
      intro p hp u hu
      rcases List.mem_append.mp hp with h | h
      · exact hpre p h u (List.mem_cons_of_mem _ hu)
      · have hpt : p = t := by simpa using h
        subst hpt
        exact (List.pairwise_cons.mp hpair).1 u hu
    have hpair1 : ts.Pairwise (fun a b => b - a < 60) :=
      (List.pairwise_cons.mp hpair).2
    obtain ⟨ihr, ihh, ihs⟩ :=
      runRateChecks_window T ip ts (check_rate_limit st t ip).1 hT1 hpre1 hpair1
    rw [runRateChecks_cons]
    refine ⟨?_, ?_, ?_⟩
    · show (check_rate_limit st t ip).2
          :: (runRateChecks ip (check_rate_limit st t ip).1 ts).2 = _
      rw [check_rate_limit_ok st t ip T hT, hfil, ihr, hh1,
        List.length_cons, List.range_succ_eq_map, List.map_cons, List.map_map]
      refine congrArg₂ List.cons (by norm_num) ?_
      apply List.map_congr_left
      intro i _
      simp only [Function.comp]
      have harr : (((st.request_history ip ++ [t]).length : ℤ)) + (i : ℤ)
          = ((st.request_history ip).length : ℤ) + ((i + 1 : ℕ) : ℤ) := by
        rw [List.length_append, List.length_singleton]
        push_cast
        ring
      rw [harr]
    · show (runRateChecks ip (check_rate_limit st t ip).1 ts).1.request_history ip = _
      rw [ihh, hh1, List.append_assoc]
      rfl
    · show (runRateChecks ip (check_rate_limit st t ip).1 ts).1.alert_settings = _
      rw [ihs, hstate.2.1]

/-- C1 amended: starting from an empty history for a source, the `i`-th
request in a burst inside one 60-second window sees `i - 1` surviving prior
entries and trips iff `i - 1 > T`; hence sending exactly `T + 1` requests
never makes the rate check return true, and the `(T+2)`-th request within the
same window does.  (The original claim's `(T+1)`-th request does not trip:
see the counterexample.) -/
theorem rate_limit_off_by_one_amended (T : ℕ) (st : MonitorState) (ip : String)
    (hT : max_requests_per_minute st.alert_settings = .ok (T : Int))
    (hempty : st.request_history ip = [])
    (times : List Int) (hpair : times.Pairwise fun a b => b - a < 60) :
    (runRateChecks ip st times).2
      = (List.range times.length).map (fun i => .ok (decide ((T : Int) < (i : Int)))) ∧
    (times.length ≤ T + 1 → ∀ r ∈ (runRateChecks ip st times).2, r = .ok false) ∧
    (times.length = T + 2 →
      (runRateChecks ip st times).2.getLast? = some (.ok true)) := by
  have hpre : ∀ p ∈ st.request_history ip, ∀ u ∈ times, u - p < 60 := by
    rw [hempty]
    intro p hp
    simp at hp
  obtain ⟨hr, _, _⟩ := runRateChecks_window (T : Int) ip times st hT hpre hpair
  rw [hempty] at hr
  simp only [List.length_nil, Nat.cast_zero, zero_add] at hr
  refine ⟨hr, ?_, ?_⟩
  · intro hlen r hrmem
    rw [hr] at hrmem
    obtain ⟨i, hi, hie⟩ := List.mem_map.mp hrmem
    have hirange := List.mem_range.mp hi
    rw [← hie]
    have hdec : decide ((T : Int) < (i : Int)) = false := by
      rw [decide_eq_false_iff_not]
      omega
    rw [hdec]
  · intro hlen
    rw [hr, hlen, List.range_succ, List.map_append]
    have hdec : decide ((T : Int) < ((T + 1 : ℕ) : Int)) = true := by
      rw [decide_eq_true_eq]
      omega
    simp [List.getLast?_concat, hdec]

/-- Witness for `rate_limit_off_by_one_amended`: threshold 1, three requests
at 0, 10, 20 seconds — the third (= `T + 2`-th) check returns true. -/
theorem rate_limit_off_by_one_amended_witness :
    (runRateChecks "10.0.0.1" (init "m" (settingsT 1)) [0, 10, 20]).2.getLast?
      = some (.ok true) :=
  (rate_limit_off_by_one_amended 1 (init "m" (settingsT 1)) "10.0.0.1" rfl rfl
    [0, 10, 20] (by decide)).2.2 rfl

/-- C5 counterexample: a monitor constructed with settings lacking
`alert_thresholds` is constructed successfully (construction never
validates), and the very first `detect_threat` call then surfaces the
missing-threshold `KeyError` — refuting "fails at construction time, so a
successfully constructed monitor never surfaces a missing-threshold error
during a later `detect_threat` call". -/
theorem fail_fast_configuration_counterexample :
    (init "model" settingsNoThresholds).incident_log = [] ∧
    (detect_threat (init "model" settingsNoThresholds) 0
        ⟨"10.0.0.1", some arrBenign⟩ (.ok ())).2
      = .error (.keyError "alert_thresholds") := ⟨rfl, rfl⟩

/-- C5 amended: construction stores the settings unvalidated and always
succeeds; whenever the threshold lookup fails, every `detect_threat` call
surfaces that `KeyError` at call time and records no incident. -/
theorem missing_threshold_surfaces_at_call_time (st : MonitorState) (e : PyError)
    (h : max_requests_per_minute st.alert_settings = .error e)
    (now : Int) (req : RequestData) (transport : Except String Unit) :
    (detect_threat st now req transport).2 = .error e ∧
    (detect_threat st now req transport).1.incident_log = st.incident_log ∧
    ∀ m lp, (init m st.alert_settings lp).alert_settings = st.alert_settings := by
  refine ⟨?_, ?_, fun m lp => rfl⟩ <;>
    simp [detect_threat, check_rate_limit, h]

/-- Witness for `missing_threshold_surfaces_at_call_time` at a concrete
monitor missing `alert_thresholds`. -/
theorem missing_threshold_surfaces_at_call_time_witness :
    (detect_threat (init "m" settingsNoThresholds) 5 ⟨"10.0.0.1", none⟩ (.ok ())).2
      = .error (.keyError "alert_thresholds") :=
  (missing_threshold_surfaces_at_call_time (init "m" settingsNoThresholds)
    (.keyError "alert_thresholds") rfl 5 ⟨"10.0.0.1", none⟩ (.ok ())).1

/-- C6 counterexample: `[[2000000]]` fires `extreme_values`, then
`np.gradient` raises on the size-1 axes; the result carries TWO labels, so an
internal analysis failure does not always yield `analysis_error` as the
single label. -/
theorem analysis_single_label_counterexample :
    analysisRaises (some arr1x1big) = true ∧
    analyze_input_patterns (some arr1x1big)
      = ⟨["extreme_values", "analysis_error"]⟩ := by
  have hb : analyzeBody arr1x1big = (["extreme_values"], true) := by
    simp only [analyzeBody, arr1x1big, NDArray.size, NDArray.ndim,
      NDArray.gradientDefined, NDArray.count_nonzero]
    norm_num
  exact ⟨by simp [analysisRaises, hb], by simp [analyze_input_patterns, hb]⟩

/-- C6 amended: an internal analysis failure is caught (never propagates) and
appends `analysis_error` as the final label, after whatever labels the checks
completed before the failure point had produced; when the input cannot be
coerced into a numeric array at all, `analysis_error` is the single label.
When nothing fails, `analysis_error` never appears. -/
theorem analysis_error_terminal_amended (i : Option NDArray) :
    (analysisRaises i = true →
      ∃ pre, (analyze_input_patterns i).suspicious_patterns = pre ++ ["analysis_error"] ∧
        "analysis_error" ∉ pre ∧ (i = none → pre = [])) ∧
    (analysisRaises i = false →
      "analysis_error" ∉ (analyze_input_patterns i).suspicious_patterns) := by
  cases i with
  | none =>
    refine ⟨fun _ => ⟨[], rfl, by simp, fun _ => rfl⟩, fun h => by simp [analysisRaises] at h⟩
  | some t =>
    rcases hb : analyzeBody t with ⟨ls, raised⟩
    have hls : "analysis_error" ∉ ls := by
      have := analyzeBody_no_analysis_error t
      rwa [hb] at this
    constructor
    · intro hr
      simp only [analysisRaises, hb] at hr
      subst hr
      exact ⟨ls, by simp [analyze_input_patterns, hb], hls, by simp⟩
    · intro hr
      simp only [analysisRaises, hb] at hr
      subst hr
      simpa [analyze_input_patterns, hb] using hls

/-- Witness for `analysis_error_terminal_amended` at an uncoercible input. -/
theorem analysis_error_terminal_amended_witness :
    ∃ pre, (analyze_input_patterns none).suspicious_patterns = pre ++ ["analysis_error"] ∧
      "analysis_error" ∉ pre ∧ ((none : Option NDArray) = none → pre = []) :=
  (analysis_error_terminal_amended none).1 rfl

/-- C7 counterexample: a 100-element array with exactly 1 nonzero element has
nonzero fraction exactly `1/100 = 0.01`, and the strict `< 0.01` comparison
does NOT fire, so no `suspicious_sparsity` label is produced — refuting "a
100-element array with exactly 1 nonzero element yields the label". -/
theorem sparsity_boundary_counterexample :
    arr100one.size = 100 ∧ arr100one.count_nonzero = 1 ∧
    analyze_input_patterns (some arr100one) = ⟨[]⟩ := by
  have hc : arr100one.count_nonzero = 1 := by decide
  have ha : (arr100one.data.any fun x => decide (1000000 < |x|)) = false := by decide
  have hs : arr100one.size = 100 := rfl
  have hn : arr100one.ndim = 1 := rfl
  have hb : analyzeBody arr100one = ([], false) := by
    simp only [analyzeBody, hc, ha, hs, hn]
    norm_num
  exact ⟨hs, hc, by simp [analyze_input_patterns, hb]⟩

/-- C7 amended: on a 100-element array, exactly 1 nonzero element gives a
nonzero fraction of exactly `1/100 = 0.01`, which the strict `< 0.01` test
does NOT fire on, so `suspicious_sparsity` is absent; 0 nonzero elements give
fraction 0, which does fire. -/
theorem sparsity_boundary_amended (t : NDArray) (h : t.size = 100) :
    (t.count_nonzero = 1 →
      "suspicious_sparsity" ∉ (analyze_input_patterns (some t)).suspicious_patterns) ∧
    (t.count_nonzero = 0 →
      "suspicious_sparsity" ∈ (analyze_input_patterns (some t)).suspicious_patterns) := by
  have h0 : t.size ≠ 0 := by rw [h]; norm_num
  constructor
  · intro hc
    rw [sparsity_mem_iff t h0, sparsity_cond_iff _ _ h0, hc, h]
    norm_num
  · intro hc
    rw [sparsity_mem_iff t h0, sparsity_cond_iff _ _ h0, hc, h]
    norm_num

/-- Witness for `sparsity_boundary_amended`: the all-zero 100-element array
triggers the label. -/
theorem sparsity_boundary_amended_witness :
    arr100zeros.count_nonzero = 0 ∧
    "suspicious_sparsity" ∈ (analyze_input_patterns (some arr100zeros)).suspicious_patterns :=
  ⟨by decide, (sparsity_boundary_amended arr100zeros rfl).2 (by decide)⟩

/-- C2: the assessment starts at severity low; a lone rate violation returns
medium with no `details.patterns`; any pattern label forces high with
`details.patterns` attached (also when the rate fired too); and across the
two rules of one call the severity only ever increases. -/
theorem severity_combination (st : MonitorState) (now : Int) (req : RequestData)
    (transport : Except String Unit) (T : Int)
    (hT : max_requests_per_minute st.alert_settings = .ok T) :
    (detect_threat st now req transport).2 = .ok (assessment st now req T) ∧
    (initialAssessment now).severity = .low ∧
    (rateHit st now req.ip_address T = true ∧
        (analyze_input_patterns req.input_data).suspicious_patterns = [] →
      (assessment st now req T).severity = .medium ∧
      (assessment st now req T).details_patterns = none) ∧
    ((analyze_input_patterns req.input_data).suspicious_patterns ≠ [] →
      (assessment st now req T).severity = .high ∧
      (assessment st now req T).details_patterns
        = some (analyze_input_patterns req.input_data)) ∧
    (rateHit st now req.ip_address T = false ∧
        (analyze_input_patterns req.input_data).suspicious_patterns = [] →
      (assessment st now req T).severity = .low) ∧
    (initialAssessment now).severity.rank
      ≤ (applyRateRule (initialAssessment now) (rateHit st now req.ip_address T)).severity.rank ∧
    (applyRateRule (initialAssessment now) (rateHit st now req.ip_address T)).severity.rank
      ≤ (assessment st now req T).severity.rank := by
  refine ⟨(detect_threat_ok st now req transport T hT).1, rfl, ?_, ?_, ?_, ?_, ?_⟩ <;>
    rcases hpc : analyze_input_patterns req.input_data with ⟨pats⟩ <;>
    cases hrh : rateHit st now req.ip_address T <;>
    cases pats <;>
    simp [assessment, applyRateRule, applyPatternRule, initialAssessment,
      Severity.rank, hpc, hrh]

/-- Witness for `severity_combination`: a fresh monitor, a benign source and
a pattern-triggering (uncoercible) input give a high-severity assessment with
`details.patterns` attached. -/
theorem severity_combination_witness :
    (detect_threat (init "m" (settingsT 10)) 0 ⟨"10.0.0.1", none⟩ (.ok ())).2
      = .ok (assessment (init "m" (settingsT 10)) 0 ⟨"10.0.0.1", none⟩ 10) ∧
    (assessment (init "m" (settingsT 10)) 0 ⟨"10.0.0.1", none⟩ 10).severity
      = .high := by
  have h := severity_combination (init "m" (settingsT 10)) 0 ⟨"10.0.0.1", none⟩
    (.ok ()) 10 rfl
  exact ⟨h.1, (h.2.2.2.1 (by simp [analyze_input_patterns])).1⟩

/-- C3: a successful `detect_threat` call appends an incident exactly when
the returned `threats_detected` list is non-empty; a clean request leaves the
incident log unchanged, hence every later summary is as if the call had not
happened. -/
theorem incident_persistence (st : MonitorState) (now : Int) (req : RequestData)
    (transport : Except String Unit) (ta : ThreatAssessment)
    (h : (detect_threat st now req transport).2 = .ok ta) :
    ((detect_threat st now req transport).1.incident_log = st.incident_log ↔
      ta.threats_detected = []) ∧
    (ta.threats_detected ≠ [] →
      (detect_threat st now req transport).1.incident_log
        = st.incident_log ++ [mkIncident ta req]) ∧
    (ta.threats_detected = [] →
      ∀ now2 hours, get_incident_summary (detect_threat st now req transport).1 now2 hours
        = get_incident_summary st now2 hours) := by
  cases hm : max_requests_per_minute st.alert_settings with
  | error e =>
    have := (detect_threat_err st now req transport e hm).1
    rw [this] at h
    exact absurd h (by simp)
  | ok T =>
    have hd := detect_threat_ok st now req transport T hm
    have hta : ta = assessment st now req T := by
      rw [hd.1] at h
      exact (Except.ok.injEq _ _ ▸ h).symm
    subst hta
    have hcrl := (check_rate_limit_state st now req.ip_address).1
    by_cases hth : (assessment st now req T).threats_detected = []
    · have hlog : (detect_threat st now req transport).1.incident_log = st.incident_log := by
        rw [hd.2, if_neg (by simp [hth]), hcrl]
      exact ⟨by simp [hlog, hth],
        fun hne => absurd hth hne,
        fun _ now2 hours => get_incident_summary_congr _ _ hlog now2 hours⟩
    · have hlog : (detect_threat st now req transport).1.incident_log
          = st.incident_log ++ [mkIncident (assessment st now req T) req] := by
        rw [hd.2, if_pos hth, log_incident_log, hcrl]
      refine ⟨?_, fun _ => hlog, fun he => absurd he hth⟩
      rw [hlog]
      simp [hth]

/-- Witness for `incident_persistence`: a clean request against a fresh
monitor leaves the incident log empty. -/
theorem incident_persistence_witness :
    (detect_threat (init "m" (settingsT 10)) 0 ⟨"10.0.0.1", some arrBenign⟩ (.ok ())).1.incident_log
      = (init "m" (settingsT 10)).incident_log := by
  have hb : analyzeBody arrBenign = ([], false) := by
    simp only [analyzeBody, arrBenign, NDArray.size, NDArray.ndim,
      NDArray.gradientDefined, NDArray.count_nonzero]
    norm_num
  have hpc : analyze_input_patterns (some arrBenign) = ⟨[]⟩ := by
    simp [analyze_input_patterns, hb]
  have hok : (detect_threat (init "m" (settingsT 10)) 0 ⟨"10.0.0.1", some arrBenign⟩ (.ok ())).2
      = .ok (assessment (init "m" (settingsT 10)) 0 ⟨"10.0.0.1", some arrBenign⟩ 10) :=
    (detect_threat_ok (init "m" (settingsT 10)) 0 ⟨"10.0.0.1", some arrBenign⟩
      (.ok ()) 10 rfl).1
  have hth : (assessment (init "m" (settingsT 10)) 0 ⟨"10.0.0.1", some arrBenign⟩ 10).threats_detected = [] := by
    simp [assessment, applyRateRule, applyPatternRule, initialAssessment, hpc,
      rateHit, init]
  exact (incident_persistence (init "m" (settingsT 10)) 0 ⟨"10.0.0.1", some arrBenign⟩
    (.ok ()) _ hok).1.mpr hth

/-- Helper: an assessment with a non-empty threat list has severity medium or
high (rate rule gives medium, pattern rule gives high; with neither, the
threat list is empty). -/
theorem assessment_threats_severity (st : MonitorState) (now : Int)
    (req : RequestData) (T : Int)
    (h : (assessment st now req T).threats_detected ≠ []) :
    (assessment st now req T).severity = .medium ∨
      (assessment st now req T).severity = .high := by
  rcases hpc : analyze_input_patterns req.input_data with ⟨pats⟩
  cases hrh : rateHit st now req.ip_address T <;> cases pats <;>
    simp_all [assessment, applyRateRule, applyPatternRule, initialAssessment, hpc, hrh]

/-- C4: with the transport failing, the failure is caught inside the
dispatcher (the `_send_alert` body does raise), `detect_threat` still
succeeds and its entire result is independent of the transport outcome, and
any incident it records is in the log despite the failed send (recording
precedes the dispatch attempt). -/
theorem transport_failure_isolation (st : MonitorState) (now : Int)
    (req : RequestData) (failureMsg : String) (T : Int)
    (hT : max_requests_per_minute st.alert_settings = .ok T) :
    (∀ i, ∃ e, sendAlertBody st.model_name st.alert_settings (.error failureMsg) i
        = .error e) ∧
    (detect_threat st now req (.error failureMsg)).2 = .ok (assessment st now req T) ∧
    detect_threat st now req (.error failureMsg) = detect_threat st now req (.ok ()) ∧
    ((assessment st now req T).threats_detected ≠ [] →
      mkIncident (assessment st now req T) req
        ∈ (detect_threat st now req (.error failureMsg)).1.incident_log) := by
  refine ⟨?_, (detect_threat_ok st now req (.error failureMsg) T hT).1, rfl, ?_⟩
  · intro i
    cases hss : st.alert_settings.smtp_settings with
    | none => exact ⟨.keyError "smtp_settings", by simp [sendAlertBody, hss]⟩
    | some ss =>
      cases hsen : ss.sender with
      | none => exact ⟨.keyError "sender", by simp [sendAlertBody, hss, hsen]⟩
      | some sndr =>
        cases hrec : st.alert_settings.email_recipients with
        | none => exact ⟨.keyError "email_recipients", by simp [sendAlertBody, hss, hsen, hrec]⟩
        | some rs => exact ⟨.smtpError failureMsg, by simp [sendAlertBody, hss, hsen, hrec]⟩
  · intro hth
    rw [(detect_threat_ok st now req (.error failureMsg) T hT).2, if_pos hth,
      log_incident_log]
    simp

/-- Witness for `transport_failure_isolation`: a failing transport, a fresh
monitor and a threat-carrying request; the call succeeds and the incident is
in the log. -/
theorem transport_failure_isolation_witness :
    (detect_threat (init "m" (settingsT 10)) 0 ⟨"10.0.0.1", none⟩
        (.error "connection refused")).2
      = .ok (assessment (init "m" (settingsT 10)) 0 ⟨"10.0.0.1", none⟩ 10) ∧
    mkIncident (assessment (init "m" (settingsT 10)) 0 ⟨"10.0.0.1", none⟩ 10)
        ⟨"10.0.0.1", none⟩
      ∈ (detect_threat (init "m" (settingsT 10)) 0 ⟨"10.0.0.1", none⟩
          (.error "connection refused")).1.incident_log := by
  have h := transport_failure_isolation (init "m" (settingsT 10)) 0
    ⟨"10.0.0.1", none⟩ "connection refused" 10 rfl
  refine ⟨h.2.1, h.2.2.2 ?_⟩
  simp [assessment, applyRateRule, applyPatternRule, initialAssessment,
    analyze_input_patterns, rateHit, init]

/-- C9 (implicit): every incident ever appended has severity medium or high —
the invariant holds initially, is preserved by every call, every newly
appended incident satisfies the line-141 alert guard (so a send is attempted
for it), and under the invariant the `low` bucket of every summary is 0. -/
theorem logged_incident_severity_invariant :
    (∀ m s lp, LogInv (init m s lp)) ∧
    (∀ st now req transport, LogInv st →
      LogInv (detect_threat st now req transport).1) ∧
    (∀ st now req transport i,
      i ∈ (detect_threat st now req transport).1.incident_log →
      i ∉ st.incident_log → severity_warrants_alert i.severity = true) ∧
    (∀ st now hours, LogInv st →
      (get_incident_summary st now hours).by_severity.head? = some (.low, 0)) := by
  have key : ∀ st now req transport i,
      i ∈ (detect_threat st now req (transport : Except String Unit)).1.incident_log →
      i ∈ st.incident_log ∨
        (i.severity = .medium ∨ i.severity = .high) := by
    intro st now req transport i hi
    cases hm : max_requests_per_minute st.alert_settings with
    | error e =>
      rw [(detect_threat_err st now req transport e hm).2] at hi
      exact .inl hi
    | ok T =>
      rw [(detect_threat_ok st now req transport T hm).2] at hi
      by_cases hth : (assessment st now req T).threats_detected = []
      · rw [if_neg (by simp [hth]), (check_rate_limit_state st now req.ip_address).1] at hi
        exact .inl hi
      · rw [if_pos hth, log_incident_log,
          (check_rate_limit_state st now req.ip_address).1] at hi
        rcases List.mem_append.mp hi with hold | hnew
        · exact .inl hold
        · refine .inr ?_
          have : i = mkIncident (assessment st now req T) req := by simpa using hnew
          subst this
          simpa [mkIncident] using assessment_threats_severity st now req T hth
  refine ⟨fun m s lp i hi => by simp [init] at hi, ?_, ?_, ?_⟩
  · intro st now req transport hinv i hi
    rcases key st now req transport i hi with hold | hsev
    · exact hinv i hold
    · rcases hsev with h | h <;> simp [h]
  · intro st now req transport i hi hnew
    rcases key st now req transport i hi with hold | hsev
    · exact absurd hold hnew
    · rcases hsev with h | h <;> simp [severity_warrants_alert, h]
  · intro st now hours hinv
    have hf : ((st.incident_log.filter fun i => now - 3600 * hours < i.timestamp).filter
        fun i => i.severity = Severity.low) = [] := by
      rw [List.filter_eq_nil_iff]
      intro i hi
      simp only [decide_eq_true_eq]
      exact hinv i (List.mem_of_mem_filter hi)
    simp only [get_incident_summary, List.map_cons, List.head?_cons]
    rw [hf]
    rfl

/-- Witness for `logged_incident_severity_invariant`: after one
threat-recording call on a fresh monitor, the invariant holds and the
summary's `low` bucket is 0. -/
theorem logged_incident_severity_invariant_witness :
    LogInv (detect_threat (init "m" (settingsT 10)) 0 ⟨"10.0.0.1", none⟩ (.ok ())).1 ∧
    (get_incident_summary
        (detect_threat (init "m" (settingsT 10)) 0 ⟨"10.0.0.1", none⟩ (.ok ())).1
        0 24).by_severity.head? = some (.low, 0) := by
  have h1 : LogInv (detect_threat (init "m" (settingsT 10)) 0 ⟨"10.0.0.1", none⟩ (.ok ())).1 :=
    logged_incident_severity_invariant.2.1 (init "m" (settingsT 10)) 0
      ⟨"10.0.0.1", none⟩ (.ok ())
      (logged_incident_severity_invariant.1 "m" (settingsT 10) none)
  exact ⟨h1, logged_incident_severity_invariant.2.2.2 _ 0 24 h1⟩

/-- C10: an empty (zero-size) input makes the sparsity division raise
`ZeroDivisionError`; the handler catches it, `analysis_error` is the single
analysis label, and `detect_threat` returns a high-severity assessment
carrying that label and records the incident. -/
theorem empty_input_analysis_error (t : NDArray) (h0 : t.size = 0)
    (st : MonitorState) (now : Int) (ip : String) (transport : Except String Unit)
    (T : Int) (hT : max_requests_per_minute st.alert_settings = .ok T) :
    analyze_input_patterns (some t) = ⟨["analysis_error"]⟩ ∧
    ∃ ta, (detect_threat st now ⟨ip, some t⟩ transport).2 = .ok ta ∧
      ta.severity = .high ∧ "analysis_error" ∈ ta.threats_detected ∧
      ta.details_patterns = some ⟨["analysis_error"]⟩ ∧
      (detect_threat st now ⟨ip, some t⟩ transport).1.incident_log
        = st.incident_log ++ [mkIncident ta ⟨ip, some t⟩] := by
  have hdata : t.data = [] := List.length_eq_zero.mp (t.wf.trans h0)
  have hb : analyzeBody t = ([], true) := by
    simp [analyzeBody, hdata, h0]
  have hpc : analyze_input_patterns (some t) = ⟨["analysis_error"]⟩ := by
    simp [analyze_input_patterns, hb]
  have hd := detect_threat_ok st now ⟨ip, some t⟩ transport T hT
  have hth : (assessment st now ⟨ip, some t⟩ T).threats_detected ≠ [] := by
    cases hrh : rateHit st now ip T <;>
      simp [assessment, applyRateRule, applyPatternRule, initialAssessment, hpc, hrh]
  refine ⟨hpc, assessment st now ⟨ip, some t⟩ T, hd.1, ?_, ?_, ?_, ?_⟩
  · cases hrh : rateHit st now ip T <;>
      simp [assessment, applyRateRule, applyPatternRule, initialAssessment, hpc, hrh]
  · cases hrh : rateHit st now ip T <;>
      simp [assessment, applyRateRule, applyPatternRule, initialAssessment, hpc, hrh]
  · cases hrh : rateHit st now ip T <;>
      simp [assessment, applyRateRule, applyPatternRule, initialAssessment, hpc, hrh]
  · rw [hd.2, if_pos hth, log_incident_log,
      (check_rate_limit_state st now (⟨ip, some t⟩ : RequestData).ip_address).1]

/-- Witness for `empty_input_analysis_error` at `np.asarray([])` against a
fresh monitor. -/
theorem empty_input_analysis_error_witness :
    analyze_input_patterns (some arrEmpty) = ⟨["analysis_error"]⟩ ∧
    ∃ ta, (detect_threat (init "m" (settingsT 10)) 0 ⟨"10.0.0.1", some arrEmpty⟩ (.ok ())).2
        = .ok ta ∧
      ta.severity = .high ∧ "analysis_error" ∈ ta.threats_detected ∧
      ta.details_patterns = some ⟨["analysis_error"]⟩ ∧
      (detect_threat (init "m" (settingsT 10)) 0 ⟨"10.0.0.1", some arrEmpty⟩ (.ok ())).1.incident_log
        = (init "m" (settingsT 10)).incident_log ++ [mkIncident ta ⟨"10.0.0.1", some arrEmpty⟩] :=
  empty_input_analysis_error arrEmpty rfl (init "m" (settingsT 10)) 0 "10.0.0.1"
    (.ok ()) 10 rfl

/-- Helper: one `bumpCount` step keeps the accumulator a well-formed count
table — distinct keys, and an entry `(l, c)` exactly for the labels with
positive occurrence count `c` in the multiset processed so far. -/
theorem bumpCount_table (t : String) (M : List String) (acc : List (String × Nat))
    (h1 : (acc.map Prod.fst).Nodup)
    (h2 : ∀ l c, (l, c) ∈ acc ↔ (0 < c ∧ M.count l = c)) :
    ((bumpCount acc t).map Prod.fst).Nodup ∧
    (∀ l c, (l, c) ∈ bumpCount acc t ↔ (0 < c ∧ (M ++ [t]).count l = c)) := by
  by_cases hany : acc.any (fun p => p.1 = t)
  · obtain ⟨p, hp, hpt⟩ := List.any_eq_true.mp hany
    have hpt' : p.1 = t := by simpa using hpt
    have hcM : 0 < p.2 ∧ M.count p.1 = p.2 := (h2 p.1 p.2).mp (by simpa using hp)
    have hmapfst : (bumpCount acc t).map Prod.fst = acc.map Prod.fst := by
      simp only [bumpCount, if_pos hany, List.map_map]
      apply List.map_congr_left
      intro q _
      by_cases hq : q.1 = t <;> simp [Function.comp, hq]
    refine ⟨hmapfst ▸ h1, ?_⟩
    intro l c
    simp only [bumpCount, if_pos hany, List.mem_map]
    constructor
    · rintro ⟨q, hq, hqe⟩
      by_cases hq1 : q.1 = t
      · rw [if_pos hq1] at hqe
        obtain ⟨hl, hc⟩ := Prod.mk.injEq .. ▸ hqe
        have hqacc := (h2 q.1 q.2).mp (by simpa using hq)
        subst hl
        rw [← hc]
        refine ⟨Nat.succ_pos _, ?_⟩
        rw [List.count_append, ← hq1, hqacc.2]
        simp [List.count_cons, hq1]
      · rw [if_neg hq1] at hqe
        have hqacc := (h2 q.1 q.2).mp (by simpa using hq)
        obtain ⟨hl, hc⟩ := Prod.mk.injEq .. ▸ hqe
        subst hl
        subst hc
        refine ⟨hqacc.1, ?_⟩
        rw [List.count_append, hqacc.2]
        simp [List.count_cons, hq1]
    · rintro ⟨hc, hcount⟩
      by_cases hlt : l = t
      · have hMl : M.count t = p.2 := by rw [← hpt']; exact hcM.2
        have hcount' : M.count t + 1 = c := by
          rw [hlt, List.count_append] at hcount
          simpa using hcount
        refine ⟨p, hp, ?_⟩
        rw [if_pos hpt']
        rw [Prod.mk.injEq]
        exact ⟨hpt'.trans hlt.symm, by omega⟩
      · refine ⟨(l, c), ?_, by simp [hlt]⟩
        have : M.count l = c := by
          rw [List.count_append] at hcount
          simpa [List.count_cons, hlt] using hcount
        exact (h2 l c).mpr ⟨hc, this⟩
  · have habs : ∀ c, (t, c) ∉ acc := by
      intro c hc
      exact hany (List.any_eq_true.mpr ⟨(t, c), hc, by simp⟩)
    have hcnt0 : M.count t = 0 := by
      by_contra hne
      have hpos : 0 < M.count t := Nat.pos_of_ne_zero hne
      exact habs (M.count t) ((h2 t (M.count t)).mpr ⟨hpos, rfl⟩)
    have hkey : t ∉ acc.map Prod.fst := by
      intro hmem
      obtain ⟨q, hq, hqt⟩ := List.mem_map.mp hmem
      exact hany (List.any_eq_true.mpr ⟨q, hq, by simp [hqt]⟩)
    constructor
    · simp only [bumpCount, if_neg hany, List.map_append]
      rw [List.nodup_append]
      exact ⟨h1, by simp, by simpa [List.disjoint_singleton] using hkey⟩
    · intro l c
      simp only [bumpCount, if_neg hany, List.mem_append, List.mem_singleton]
      constructor
      · rintro (hin | heq)
        · obtain ⟨hc, hcM'⟩ := (h2 l c).mp hin
          have hlt : l ≠ t := by
            rintro rfl
            exact habs c hin
          refine ⟨hc, ?_⟩
          rw [List.count_append, hcM']
          simp [List.count_cons, hlt]
        · obtain ⟨hl, hc⟩ := Prod.mk.injEq .. ▸ heq
          subst hl
          subst hc
          refine ⟨Nat.one_pos, ?_⟩
          rw [List.count_append, hcnt0]
          simp
      · rintro ⟨hc, hcount⟩
        by_cases hlt : l = t
        · subst hlt
          right
          rw [List.count_append, hcnt0] at hcount
          simp only [List.count_cons, List.count_nil] at hcount
          simp at hcount
          simp [← hcount]
        · left
          rw [List.count_append] at hcount
          have : M.count l = c := by simpa [List.count_cons, hlt] using hcount
          exact (h2 l c).mpr ⟨hc, this⟩

/-- Helper: folding `bumpCount` over a label list extends the count table by
those labels. -/
theorem foldl_bumpCount_table :
    ∀ (ls : List String) (M : List String) (acc : List (String × Nat)),
      (acc.map Prod.fst).Nodup →
      (∀ l c, (l, c) ∈ acc ↔ (0 < c ∧ M.count l = c)) →
      ((ls.foldl bumpCount acc).map Prod.fst).Nodup ∧
      (∀ l c, (l, c) ∈ ls.foldl bumpCount acc ↔ (0 < c ∧ (M ++ ls).count l = c))
  | [], M, acc, h1, h2 => by simpa using ⟨h1, h2⟩
  | t :: ls, M, acc, h1, h2 => by
    obtain ⟨g1, g2⟩ := bumpCount_table t M acc h1 h2
    have h := foldl_bumpCount_table ls (M ++ [t]) (bumpCount acc t) g1 g2
    simpa using h

/-- Helper: the nested fold of `_get_common_threats` over incidents builds a
count table for the total threat-label occurrences. -/
theorem incidents_fold_table :
    ∀ (incidents : List Incident) (M : List String) (acc : List (String × Nat)),
      (acc.map Prod.fst).Nodup →
      (∀ l c, (l, c) ∈ acc ↔ (0 < c ∧ M.count l = c)) →
      ((incidents.foldl (fun a i => i.threats.foldl bumpCount a) acc).map Prod.fst).Nodup ∧
      (∀ l c, (l, c) ∈ incidents.foldl (fun a i => i.threats.foldl bumpCount a) acc ↔
        (0 < c ∧ M.count l + threatOccurrences incidents l = c))
  | [], M, acc, h1, h2 => by
    refine ⟨h1, fun l c => ?_⟩
    rw [List.foldl_nil, h2 l c]
    simp [threatOccurrences]
  | i :: is, M, acc, h1, h2 => by
    obtain ⟨g1, g2⟩ := foldl_bumpCount_table i.threats M acc h1 h2
    have h := incidents_fold_table is (M ++ i.threats) (i.threats.foldl bumpCount acc) g1 g2
    refine ⟨by simpa [List.foldl_cons] using h.1, fun l c => ?_⟩
    rw [List.foldl_cons, h.2 l c]
    simp only [List.count_append, threatOccurrences, List.map_cons, List.sum_cons]
    omega

/-- Helper: the three severity buckets partition any incident list. -/
theorem severity_partition (l : List Incident) :
    (l.filter fun i => i.severity = Severity.low).length
      + (l.filter fun i => i.severity = Severity.medium).length
      + (l.filter fun i => i.severity = Severity.high).length = l.length := by
  induction l with
  | nil => rfl
  | cons a l ih =>
    cases ha : a.severity <;> simp [List.filter_cons, ha] <;> omega

/-- C8: `get_incident_summary(hours)` selects exactly the incidents with
timestamp strictly greater than `now - hours`; it reports their count, a
severity histogram in which all three buckets are always present and sum to
the total, the number of distinct source addresses, and a label-to-count
mapping sorted descending by count whose entries are exactly the labels with
positive occurrence count.  (It is a pure function of the state: by its type
it mutates nothing and removes no log entries.) -/
theorem summary_windowing_structure (st : MonitorState) (now hours : Int) :
    (∀ i, i ∈ (st.incident_log.filter fun j => now - 3600 * hours < j.timestamp) ↔
      (i ∈ st.incident_log ∧ now - 3600 * hours < i.timestamp)) ∧
    (get_incident_summary st now hours).total_incidents
      = (st.incident_log.filter fun j => now - 3600 * hours < j.timestamp).length ∧
    (∀ s : Severity,
      (s, ((st.incident_log.filter fun j => now - 3600 * hours < j.timestamp).filter
          fun i => i.severity = s).length)
        ∈ (get_incident_summary st now hours).by_severity) ∧
    ((get_incident_summary st now hours).by_severity.map Prod.snd).sum
      = (get_incident_summary st now hours).total_incidents ∧
    (get_incident_summary st now hours).unique_ips
      = ((st.incident_log.filter fun j => now - 3600 * hours < j.timestamp).map
          fun i => i.ip_address).toFinset.card ∧
    (get_incident_summary st now hours).most_common_threats.Pairwise
      (fun a b => b.2 ≤ a.2) ∧
    (∀ l c, (l, c) ∈ (get_incident_summary st now hours).most_common_threats ↔
      (0 < c ∧ threatOccurrences
        (st.incident_log.filter fun j => now - 3600 * hours < j.timestamp) l = c)) := by
  have htable := incidents_fold_table
    (st.incident_log.filter fun j => now - 3600 * hours < j.timestamp) [] []
    (by simp) (by intro l c; simp; omega)
  refine ⟨?_, rfl, ?_, ?_, ?_, ?_, ?_⟩
  · intro i
    simp [List.mem_filter]
  · intro s
    cases s <;> simp [get_incident_summary]
  · simp only [get_incident_summary, List.map_cons, List.map_nil, List.sum_cons,
      List.sum_nil]
    have := severity_partition
      (st.incident_log.filter fun j => now - 3600 * hours < j.timestamp)
    omega
  · simp [get_incident_summary, List.card_toFinset]
  · have hs := @List.sorted_mergeSort (String × Nat)
      (fun a b => decide (b.2 ≤ a.2))
      (fun a b c hab hbc => by
        simp only [decide_eq_true_eq] at *
        omega)
      (fun a b => by
        simp only [Bool.or_eq_true, decide_eq_true_eq]
        omega)
      ((st.incident_log.filter fun j => now - 3600 * hours < j.timestamp).foldl
        (fun a i => i.threats.foldl bumpCount a) [])
    refine List.Pairwise.imp ?_ hs
    intro a b h
    simpa using h
  · intro l c
    show (l, c) ∈ List.mergeSort _ _ ↔ _
    rw [(List.mergeSort_perm _ _).mem_iff]
    have := htable.2 l c
    simpa using this

/-- Witness for `summary_windowing_structure` at a fresh monitor. -/
theorem summary_windowing_structure_witness :
    (get_incident_summary (init "m" (settingsT 10)) 0 24).total_incidents = 0 ∧
    (get_incident_summary (init "m" (settingsT 10)) 0 24).most_common_threats.Pairwise
      (fun a b => b.2 ≤ a.2) := by
  have h := summary_windowing_structure (init "m" (settingsT 10)) 0 24
  exact ⟨by rw [h.2.1]; rfl, h.2.2.2.2.2.1⟩

end AISecurityMonitor
